import Mathlib

/-!
Shallow embedding of the Loro Templates editor extension's template
synchronization core: the binding registry, the open/edit/save workflow
(`extension.ts`), the template service's update call and validation
heuristic (`templateService.ts`), and the test runner's sample-data
synthesizer and result reader (`testRunner.ts`).

Strings are modelled as Lean `String`/`List Char`; JavaScript regular
expression scans are modelled by explicit scanning functions with the
same non-overlapping left-to-right semantics; `undefined` is modelled by
`Option`; wall-clock timestamps are passed in as explicit parameters.
-/

set_option autoImplicit false

namespace Loro

/-- The `\x7b` character (open curly brace), written via its code point. -/
def obChar : Char := '\x7b'

/-- The `\x7d` character (close curly brace), written via its code point. -/
def cbChar : Char := '\x7d'

/-- JavaScript's `\s` character class (whitespace as used by `RegExp`
and `String.prototype.trim`). -/
def isJsWs (c : Char) : Bool :=
  c = ' ' || c = '\t' || c = '\n' || c = (Char.ofNat 11) || c = (Char.ofNat 12) ||
  c = '\r' || c = (Char.ofNat 0xa0) || c = (Char.ofNat 0x1680) ||
  (0x2000 ≤ c.toNat && c.toNat ≤ 0x200a) || c = (Char.ofNat 0x2028) ||
  c = (Char.ofNat 0x2029) || c = (Char.ofNat 0x202f) || c = (Char.ofNat 0x205f) ||
  c = (Char.ofNat 0x3000) || c = (Char.ofNat 0xfeff)

/-- Attempt to match the literal pattern `pat` at the head of `s`,
returning the match length. Models a literal regex alternative. -/
def litAt (pat : List Char) (s : List Char) : Option Nat :=
  if pat.isPrefixOf s then some pat.length else none

/-- Attempt to match `/\x7b%\s*kw/` at the head of `s` (an opening
statement brace, any run of whitespace, then the literal keyword),
returning the match length. Since a keyword never starts with a
whitespace character, the greedy `\s*` needs no backtracking. -/
def braceKwAt (kw : List Char) (s : List Char) : Option Nat :=
  if [obChar, '%'].isPrefixOf s then
    let t := s.drop 2
    let w := t.takeWhile isJsWs
    if kw.isPrefixOf (t.drop w.length) then some (2 + w.length + kw.length)
    else none
  else none

/-- Fuelled scan counting non-overlapping matches left to right, as
`String.prototype.match` with a `/g` regex does: on a match of length
`len` the scan resumes after the match, otherwise it advances one
character. `fuel = s.length` always suffices. -/
def countMatchesF (matchAt : List Char → Option Nat) : Nat → List Char → Nat
  | 0, _ => 0
  | _ + 1, [] => 0
  | fuel + 1, c :: rest =>
    match matchAt (c :: rest) with
    | some len => countMatchesF matchAt fuel ((c :: rest).drop (max len 1)) + 1
    | none => countMatchesF matchAt fuel rest

/-- Models `(s.match(regex) || []).length` for a global regex described by `matchAt`. -/
def countMatches (matchAt : List Char → Option Nat) (s : List Char) : Nat :=
  countMatchesF matchAt s.length s

/-- Result of `TemplateService.validateTemplateContent`. -/
structure ValidationResult where
  isValid : Bool
  errors : List String
deriving Repr, DecidableEq

def mismatchedBracesMsg : String := "Mismatched \x7b\x7b \x7d\x7d braces"

def mismatchedStatementsMsg : String := "Mismatched \x7b% %\x7d statement braces"

def mismatchedIfMsg : String := "Mismatched if/endif blocks"

def mismatchedForMsg : String := "Mismatched for/endfor blocks"

/-- Models `TemplateService.validateTemplateContent` (templateService.ts):
four independent non-overlapping token counts over the whole text, one
error string appended per mismatched pair, `isValid` iff no errors. -/
def validateTemplateContent (content : String) : ValidationResult :=
  let cs := content.data
  let openBraces := countMatches (litAt [obChar, obChar]) cs
  let closeBraces := countMatches (litAt [cbChar, cbChar]) cs
  let openStatements := countMatches (litAt [obChar, '%']) cs
  let closeStatements := countMatches (litAt ['%', cbChar]) cs
  let ifBlocks := countMatches (braceKwAt ['i', 'f']) cs
  let endifBlocks := countMatches (braceKwAt ['e', 'n', 'd', 'i', 'f']) cs
  let forBlocks := countMatches (braceKwAt ['f', 'o', 'r']) cs
  let endforBlocks := countMatches (braceKwAt ['e', 'n', 'd', 'f', 'o', 'r']) cs
  let errors : List String :=
    (if openBraces ≠ closeBraces then [mismatchedBracesMsg] else []) ++
    (if openStatements ≠ closeStatements then [mismatchedStatementsMsg] else []) ++
    (if ifBlocks ≠ endifBlocks then [mismatchedIfMsg] else []) ++
    (if forBlocks ≠ endforBlocks then [mismatchedForMsg] else [])
  ⟨errors.isEmpty, errors⟩

/-- The `Template` record (types/index.ts); fields marked `?` in the
TypeScript interface are `Option`. -/
structure Template where
  id : String
  name : String
  category : String
  description : String
  content : String
  sampleData : Option String := none
  isActive : Bool
  createdAt : String
  updatedAt : String
  userId : Option String := none
  schema : Option String := none
deriving Repr, DecidableEq

/-- JSON-ish leaf values appearing in generated sample data and in
render result objects. -/
inductive JVal where
  | str : String → JVal
  | num : ℚ → JVal
deriving Repr, DecidableEq

/-- A flat JS object, as an insertion-ordered association list. -/
abbrev JObj := List (String × JVal)

/-- The nested sample-data object built by the synthesizer. -/
abbrev SampleData := List (String × JObj)

/-- ASCII lowercasing, as `toLowerCase` behaves on the ASCII property
names this code applies it to. -/
def jsLower (s : String) : String := String.mk (s.data.map Char.toLower)

def listInclB (needle : List Char) : List Char → Bool
  | [] => needle.isEmpty
  | c :: rest => needle.isPrefixOf (c :: rest) || listInclB needle rest

/-- Models `String.prototype.includes`. -/
def strIncludes (hay needle : String) : Bool := listInclB needle.data hay.data

/-- Models `TestRunner.generateSampleValue` (testRunner.ts): canned value
chosen by the first matching substring rule over the lowercased
property name; `now` stands for `new Date().toISOString()`. -/
def generateSampleValue (propertyName : String) (now : String) : JVal :=
  let lowerName := jsLower propertyName
  if strIncludes lowerName "name" then .str "John Doe"
  else if strIncludes lowerName "email" then .str "john@example.com"
  else if strIncludes lowerName "price" || strIncludes lowerName "cost" ||
      strIncludes lowerName "amount" then .num (9999 / 100)
  else if strIncludes lowerName "date" then .str now
  else if strIncludes lowerName "phone" then .str "+1-555-123-4567"
  else if strIncludes lowerName "address" then .str "123 Main St, Anytown, ST 12345"
  else if strIncludes lowerName "url" || strIncludes lowerName "link" then
    .str "https://example.com"
  else if strIncludes lowerName "id" then .str "12345"
  else if strIncludes lowerName "count" || strIncludes lowerName "number" ||
      strIncludes lowerName "quantity" then .num 42
  else if strIncludes lowerName "description" || strIncludes lowerName "notes" then
    .str "Sample description text"
  else if strIncludes lowerName "title" then .str "Sample Title"
  else .str "Sample Value"

def openBraces2 : List Char := [obChar, obChar]

def closeBraces2 : List Char := [cbChar, cbChar]

/-- Fuelled scan returning, left to right and non-overlapping, every
match of the double-brace variable-reference regex (open-open, optional
whitespace, one or more non-close-brace characters, optional
whitespace, close-close). Since whitespace characters are themselves
non-close-brace, the regex matches at a position exactly when open-open
is followed by a nonempty run of non-close-brace characters ending
right before close-close, and the match spans through that close-close. -/
def extractVarRefsF : Nat → List Char → List (List Char)
  | 0, _ => []
  | _ + 1, [] => []
  | fuel + 1, c :: rest =>
    let s := c :: rest
    if openBraces2.isPrefixOf s then
      let t := s.drop 2
      let run := t.takeWhile (fun d => d ≠ cbChar)
      let after := t.drop run.length
      if 1 ≤ run.length && closeBraces2.isPrefixOf after then
        (openBraces2 ++ run ++ closeBraces2) :: extractVarRefsF fuel (after.drop 2)
      else extractVarRefsF fuel rest
    else extractVarRefsF fuel rest

/-- Models `content.match(/.../g) || []` for the variable-reference regex. -/
def extractVarRefs (content : String) : List (List Char) :=
  extractVarRefsF content.data.length content.data

/-- Models `String.prototype.trim`. -/
def jsTrim (s : List Char) : List Char :=
  ((s.dropWhile isJsWs).reverse.dropWhile isJsWs).reverse

/-- Models `match.replace` removing every brace, then `trim`. -/
def refToVariable (m : List Char) : List Char :=
  jsTrim (m.filter (fun c => c ≠ obChar && c ≠ cbChar))

/-- Models `String.prototype.split` on a single-character separator. -/
def splitOnChar (sep : Char) : List Char → List (List Char)
  | [] => [[]]
  | c :: rest =>
    if c = sep then [] :: splitOnChar sep rest
    else
      match splitOnChar sep rest with
      | h :: t => (c :: h) :: t
      | [] => [[c]]

/-- JS property assignment `o[k] = v` on an insertion-ordered object:
an existing key keeps its position, a new key is appended. -/
def upsert (m : JObj) (k : String) (v : JVal) : JObj :=
  match m with
  | [] => [(k, v)]
  | (k0, v0) :: rest => if k0 = k then (k, v) :: rest else (k0, v0) :: upsert rest k v

/-- Models creating the first-segment object when absent and assigning the second-segment property under it. -/
def setNested (data : SampleData) (obj prop : String) (v : JVal) : SampleData :=
  match data with
  | [] => [(obj, [(prop, v)])]
  | (k0, inner) :: rest =>
    if k0 = obj then (k0, upsert inner prop v) :: rest
    else (k0, inner) :: setNested rest obj prop v

/-- The fixed fallback fixture returned when no two-segment variable
reference is found. -/
def defaultSampleData : SampleData :=
  [("user", [("name", .str "John Doe"), ("email", .str "john@example.com")]),
   ("company", [("name", .str "Example Corp")])]

/-- Loop body of `TestRunner.generateSampleDataFromTemplate`: strip the
braces from one matched reference, trim, split on dots; a reference
with at least two segments files a generated value under its first two
segments, anything shorter is ignored. -/
def synthStep (now : String) (acc : SampleData) (m : List Char) : SampleData :=
  let varName := refToVariable m
  match splitOnChar '.' varName with
  | objectName :: propertyName :: _ =>
    setNested acc (String.mk objectName) (String.mk propertyName)
      (generateSampleValue (String.mk propertyName) now)
  | _ => acc

/-- Body of `TestRunner.generateSampleDataFromTemplate` after
`const content = template.content`. -/
def generateSampleDataFromContent (content : String) (now : String) : SampleData :=
  let data := (extractVarRefs content).foldl (synthStep now) []
  if data.length > 0 then data else defaultSampleData

/-- Models `TestRunner.generateSampleDataFromTemplate` (testRunner.ts). -/
def generateSampleDataFromTemplate (template : Template) (now : String) : SampleData :=
  generateSampleDataFromContent template.content now

/-- Partial template payload passed to `TemplateService.updateTemplate`
(a TypeScript `Partial<Template>`): `none` models `undefined`. -/
structure TemplateUpdate where
  name : Option String := none
  category : Option String := none
  description : Option String := none
  content : Option String := none
  isActive : Option Bool := none
  sampleData : Option String := none
  schema : Option String := none
deriving Repr, DecidableEq

/-- JS falsiness of an optional string: `undefined` or the empty string. -/
def strFalsy : Option String → Bool
  | none => true
  | some s => s = ""

/-- Models `x || d` for an optional string and a string default. -/
def jsOrD (x : Option String) (d : String) : String :=
  match x with
  | some s => if s = "" then d else s
  | none => d

/-- Models `x || null` for an optional string. -/
def jsOrNull (x : Option String) : Option String :=
  match x with
  | some s => if s = "" then none else some s
  | none => none

/-- Models JavaScript's rendering of a thrown `Error` in a template
literal. -/
def jsErrorString (msg : String) : String := "Error: " ++ msg

/-- The PascalCase request body built by `TemplateService.updateTemplate`
for the PUT call. It has no `CreatedAt` and no `UserId` field; the
source's removal of `undefined` fields is a no-op here because every
field below is assigned a value. -/
structure UpdateRequestBody where
  Id : String
  Name : String
  Description : String
  Content : String
  Category : String
  IsActive : Bool
  Schema : Option String
  SampleData : Option String
  UpdatedAt : String
deriving Repr, DecidableEq

/-- The `requestBody` object literal of `TemplateService.updateTemplate`
(templateService.ts). `now` stands for `new Date().toISOString()`.
`name`/`content` are read raw (they are guarded non-falsy before this
point, so `getD` never supplies its default). -/
def mkUpdateRequestBody (id : String) (templateData : TemplateUpdate)
    (now : String) : UpdateRequestBody :=
  { Id := id
    Name := templateData.name.getD ""
    Description := jsOrD templateData.description ""
    Content := templateData.content.getD ""
    Category := jsOrD templateData.category "General"
    IsActive := templateData.isActive.getD true
    Schema := jsOrNull templateData.schema
    SampleData := jsOrNull templateData.sampleData
    UpdatedAt := now }

/-- Outcome of the HTTP PUT as seen through `httpRequest` and
`makeApiCall`: a parsed 2xx body, a 2xx empty body (where `json()`
yields `null`), a non-2xx response (status, statusText, body text), or
a transport error. -/
inductive HttpOutcome where
  | ok : Template → HttpOutcome
  | emptyBody : HttpOutcome
  | httpError : Nat → String → String → HttpOutcome
  | netError : String → HttpOutcome
deriving Repr, DecidableEq

/-- Observable result of one `updateTemplate` run: the returned value
(`none` models the `null` returned from the catch block), the request
body if the PUT was issued, and the message passed to
`showErrorMessage`, if any. -/
structure UpdateRun where
  result : Option Template
  requestSent : Option UpdateRequestBody
  errorShown : Option String
deriving Repr, DecidableEq

/-- Models `TemplateService.updateTemplate` (templateService.ts):
require `name` and `content` to be truthy before anything else, build
the PascalCase body, issue the PUT through `makeApiCall` (which itself
throws without an API key, before any request), treat an empty 2xx body
as success by re-deriving the saved record from the request payload,
and map every thrown error to a shown message plus a `null` result.
`nowReq` and `nowResp` stand for the two `new Date().toISOString()`
calls (request body and empty-body fallback record). -/
def updateTemplate (id : String) (templateData : TemplateUpdate)
    (apiKey : Option String) (outcome : HttpOutcome)
    (nowReq nowResp : String) : UpdateRun :=
  if strFalsy templateData.name then
    { result := none, requestSent := none,
      errorShown := some ("Failed to update template: " ++
        jsErrorString "Name field is required") }
  else if strFalsy templateData.content then
    { result := none, requestSent := none,
      errorShown := some ("Failed to update template: " ++
        jsErrorString "Content field is required") }
  else
    let requestBody := mkUpdateRequestBody id templateData nowReq
    match apiKey with
    | none =>
      { result := none, requestSent := none,
        errorShown := some ("Failed to update template: " ++
          jsErrorString "Not authenticated. Please login first.") }
    | some _ =>
      match outcome with
      | .netError msg =>
        { result := none, requestSent := some requestBody,
          errorShown := some ("Failed to update template: " ++ jsErrorString msg) }
      | .httpError status statusText bodyText =>
        { result := none, requestSent := some requestBody,
          errorShown := some ("Failed to update template: " ++ jsErrorString
            ("API call failed: " ++ toString status ++ " " ++ statusText ++
              " - " ++ bodyText)) }
      | .emptyBody =>
        { result := some
            { id := id
              name := templateData.name.getD ""
              category := templateData.category.getD ""
              description := templateData.description.getD ""
              content := templateData.content.getD ""
              isActive := templateData.isActive.getD true
              sampleData := jsOrNull templateData.sampleData
              schema := jsOrNull templateData.schema
              createdAt := ""
              updatedAt := nowResp }
          requestSent := some requestBody
          errorShown := none }
      | .ok t =>
        { result := some t, requestSent := some requestBody, errorShown := none }

/-- Models `openTemplate` (extension.ts) after a successful
fetch-by-id: a new editor buffer is created holding the fetched
record's content, and the entire record is stored as the document's
binding. -/
def openTemplate (fullTemplate : Template) : Template × String :=
  (fullTemplate, fullTemplate.content)

/-- The partial payload `saveTemplateToServer` passes to
`updateTemplate`: the whole stored binding with `content` replaced by
the current buffer text. -/
def savePayload (storedTemplate : Template) (bufferText : String) : TemplateUpdate :=
  { name := some storedTemplate.name
    category := some storedTemplate.category
    description := some storedTemplate.description
    content := some bufferText
    isActive := some storedTemplate.isActive
    sampleData := storedTemplate.sampleData
    schema := storedTemplate.schema }

/-- Observable result of one `saveTemplateToServer` run: the binding
after the save, the success message if shown, the error message if
shown, and the request body if the PUT was issued. -/
structure SaveRun where
  binding : Template
  infoShown : Option String
  errorShown : Option String
  requestSent : Option UpdateRequestBody
deriving Repr, DecidableEq

/-- Models `saveTemplateToServer` (extension.ts) for a document with a
stored binding: guard that the stored name is present, delegate to
`updateTemplate`, and on a truthy result show the success message and
mutate only the binding's `content`; on a `null` result (any failure)
the binding is untouched and the only message shown is the one
`updateTemplate` already reported. -/
def saveTemplateToServer (storedTemplate : Template) (bufferText : String)
    (apiKey : Option String) (outcome : HttpOutcome)
    (nowReq nowResp : String) : SaveRun :=
  if storedTemplate.name = "" then
    { binding := storedTemplate
      infoShown := none
      errorShown := some ("Failed to save template to server: " ++
        jsErrorString "Template name is missing from stored template")
      requestSent := none }
  else
    let run := updateTemplate storedTemplate.id
      (savePayload storedTemplate bufferText) apiKey outcome nowReq nowResp
    match run.result with
    | some _ =>
      { binding := { storedTemplate with content := bufferText }
        infoShown := some ("Template \"" ++ storedTemplate.name ++
          "\" saved to server successfully")
        errorShown := run.errorShown
        requestSent := run.requestSent }
    | none =>
      { binding := storedTemplate
        infoShown := none
        errorShown := run.errorShown
        requestSent := run.requestSent }

/-- Models `prop.charAt(0).toLowerCase() + prop.slice(1)`. -/
def lowerFirst (p : String) : String :=
  match p.data with
  | [] => ""
  | c :: rest => String.mk (Char.toLower c :: rest)

/-- Models `prop.charAt(0).toUpperCase() + prop.slice(1)`. -/
def upperFirst (p : String) : String :=
  match p.data with
  | [] => ""
  | c :: rest => String.mk (Char.toUpper c :: rest)

/-- Association-list read of a JS object field; `none` models
`undefined`. -/
def jsGet (obj : JObj) (k : String) : Option JVal :=
  match obj with
  | [] => none
  | (k0, v) :: rest => if k0 = k then some v else jsGet rest k

/-- Models `getProp` (testRunner.ts): for each candidate name try the
exact key, then the key with its first letter lowercased, then with its
first letter uppercased; otherwise move on to the next candidate,
ultimately returning `undefined`. -/
def getProp (obj : JObj) : List String → Option JVal
  | [] => none
  | prop :: props =>
    match jsGet obj prop with
    | some v => some v
    | none =>
      match jsGet obj (lowerFirst prop) with
      | some v => some v
      | none =>
        match jsGet obj (upperFirst prop) with
        | some v => some v
        | none => getProp obj props

/-- JS truthiness of a possibly-absent result-object value. -/
def jtruthy : Option JVal → Bool
  | none => false
  | some (.str s) => s ≠ ""
  | some (.num q) => q ≠ 0

/-- Models JS string coercion for the values this code moves into
string-typed fields. -/
def jvalShow : JVal → String
  | .str s => s
  | .num q => toString q

def digitsVal (ds : List Char) : Nat :=
  ds.foldl (fun n c => 10 * n + (c.toNat - 48)) 0

/-- Models `parseFloat` on plain decimal strings (optional sign,
digits, optional fraction); input JS would map through `NaN` is
modelled as 0. Only the untimed `renderTime` branch uses this. -/
def parseFloatQ (s : String) : ℚ :=
  let cs := s.data.dropWhile isJsWs
  let signAndRest : ℚ × List Char :=
    match cs with
    | c :: rest => if c = '-' then (-1, rest) else if c = '+' then (1, rest) else (1, cs)
    | [] => (1, [])
  let ip := signAndRest.2.takeWhile Char.isDigit
  let rest := signAndRest.2.drop ip.length
  let fp : List Char :=
    match rest with
    | c :: r => if c = '.' then r.takeWhile Char.isDigit else []
    | [] => []
  if ip.isEmpty && fp.isEmpty then 0
  else signAndRest.1 * ((digitsVal ip : ℚ) + (digitsVal fp : ℚ) / ((10 : ℚ) ^ fp.length))

def jvalToNumber : JVal → ℚ
  | .num q => q
  | .str s => parseFloatQ s

/-- Models `Math.round` (round half toward positive infinity). -/
def jsRound (q : ℚ) : Int := ⌊q + 1 / 2⌋

/-- The `TestResult` record (types/index.ts). -/
structure TestResult where
  success : Bool
  output : String
  duration : Int
  errors : List String
  usageConsumed : Option Nat := none
deriving Repr, DecidableEq

/-- Outcome of `templateService.testTemplate` as awaited by the test
runner: a parsed render result object, or a thrown error message. -/
inductive RenderOutcome where
  | ok : JObj → RenderOutcome
  | err : String → RenderOutcome
deriving Repr, DecidableEq

/-- Models `TestRunner.testTemplate` (testRunner.ts). `elapsed` stands
for `Date.now() - startTime` at the point a result is produced. The
second component records whether the remote render call was issued. -/
def testTemplateRun (template : Template) (render : RenderOutcome)
    (elapsed : Int) : TestResult × Bool :=
  let validation := validateTemplateContent template.content
  if !validation.isValid then
    ({ success := false, output := "", duration := elapsed,
       errors := validation.errors, usageConsumed := none }, false)
  else
    match render with
    | .err msg =>
      ({ success := false, output := "", duration := elapsed,
         errors := [msg], usageConsumed := none }, true)
    | .ok result =>
      let outputRaw := getProp result ["output", "Output", "result", "Result"]
      let output : JVal :=
        match outputRaw with
        | some v => if jtruthy (some v) then v else .str ""
        | none => .str ""
      let error := getProp result ["error", "Error"]
      let renderTime := getProp result ["renderTime", "RenderTime"]
      let success : Bool :=
        if jtruthy error then false
        else
          match output with
          | .str s => s ≠ ""
          | .num _ => false
      ({ success := success
         output := if jtruthy (some output) then jvalShow output else "No output received"
         duration :=
           if jtruthy renderTime then
             jsRound (jvalToNumber (renderTime.getD (.num 0)) * 1000)
           else elapsed
         errors := if jtruthy error then [jvalShow (error.getD (.str ""))] else []
         usageConsumed := some 1 }, true)

/-- A concrete binding whose `category` is the empty string. -/
def emptyCategoryTpl : Template :=
  { id := "tpl-8", name := "N", category := "", description := "D",
    content := "old", isActive := true, createdAt := "c", updatedAt := "u" }

/-- The request body actually produced for `emptyCategoryTpl`. -/
def emptyCategoryBody : UpdateRequestBody :=
  { Id := "tpl-8", Name := "N", Description := "D", Content := "new",
    Category := "General", IsActive := true, Schema := none,
    SampleData := none, UpdatedAt := "T1" }

/-- A concrete record to open and save unchanged. -/
def welcomeTpl : Template :=
  { id := "tpl-3", name := "Welcome", category := "Email",
    description := "d", content := "Hi there", isActive := true,
    createdAt := "c", updatedAt := "u" }

theorem validationMsgs_distinct :
    mismatchedBracesMsg ≠ mismatchedStatementsMsg ∧
    mismatchedBracesMsg ≠ mismatchedIfMsg ∧
    mismatchedBracesMsg ≠ mismatchedForMsg := by
  refine ⟨?_, ?_, ?_⟩ <;> decide

/-- C6: `validateTemplateContent` reports the brace-mismatch error iff
the non-overlapping counts of `\x7b\x7b` and `\x7d\x7d` over the whole
text differ (totals only, no nesting), and `isValid` is true iff the
errors list is empty. -/
theorem validate_braceMismatch_iff_and_isValid_iff_noErrors (content : String) :
    (mismatchedBracesMsg ∈ (validateTemplateContent content).errors ↔
      countMatches (litAt [obChar, obChar]) content.data ≠
        countMatches (litAt [cbChar, cbChar]) content.data) ∧
    ((validateTemplateContent content).isValid = true ↔
      (validateTemplateContent content).errors = []) := by
  obtain ⟨h1, h2, h3⟩ := validationMsgs_distinct
  unfold validateTemplateContent
  dsimp only
  constructor
  · split <;> split <;> split <;> split <;>
      simp_all [List.mem_append, h1, h2, h3]
  · split <;> split <;> split <;> split <;> simp

/-- C7: on `"Hello \x7b\x7b user.name \x7d\x7d, total \x7b\x7b order.total \x7d\x7d"`
the synthesizer yields exactly the keys `user` and `order`, with
`user.name` the name-rule value `"John Doe"` and `order.total` the
generic default `"Sample Value"` (no rule keyword matches `total`),
whatever the current timestamp is. -/
theorem synthesize_hello_total (now : String) (t : Template)
    (h : t.content = "Hello \x7b\x7b user.name \x7d\x7d, total \x7b\x7b order.total \x7d\x7d") :
    generateSampleDataFromTemplate t now =
      [("user", [("name", JVal.str "John Doe")]),
       ("order", [("total", JVal.str "Sample Value")])] := by
  unfold generateSampleDataFromTemplate
  rw [h]
  rfl

/-- Witness for C7 at a fully concrete template and timestamp. -/
theorem synthesize_hello_total_witness :
    generateSampleDataFromTemplate
      { id := "tpl-1", name := "Greeting", category := "General", description := "",
        content := "Hello \x7b\x7b user.name \x7d\x7d, total \x7b\x7b order.total \x7d\x7d",
        isActive := true, createdAt := "2024-01-01", updatedAt := "2024-01-02" }
      "2024-06-01T00:00:00Z" =
      [("user", [("name", JVal.str "John Doe")]),
       ("order", [("total", JVal.str "Sample Value")])] :=
  synthesize_hello_total "2024-06-01T00:00:00Z" _ rfl

theorem synthStep_of_short (now : String) (acc : SampleData) (m : List Char)
    (h : (splitOnChar '.' (refToVariable m)).length < 2) :
    synthStep now acc m = acc := by
  rcases hs : splitOnChar '.' (refToVariable m) with _ | ⟨a, _ | ⟨b, tl⟩⟩
  · simp [synthStep, hs]
  · simp [synthStep, hs]
  · rw [hs] at h
    exact absurd h (by simp)

theorem synthFold_of_short (now : String) (refs : List (List Char))
    (h : ∀ m ∈ refs, (splitOnChar '.' (refToVariable m)).length < 2) :
    refs.foldl (synthStep now) [] = ([] : SampleData) := by
  induction refs with
  | nil => rfl
  | cons m rest ih =>
    have hm := h m (List.mem_cons_self _ _)
    have hrest : ∀ x ∈ rest, (splitOnChar '.' (refToVariable x)).length < 2 :=
      fun x hx => h x (List.mem_cons_of_mem _ hx)
    rw [List.foldl_cons, synthStep_of_short now [] m hm]
    exact ih hrest

/-- C8: when no matched variable reference has at least two
dot-separated segments, the synthesizer returns the fixed default
fixture, which is not the empty object. -/
theorem synthesize_default_on_no_two_segment_refs (t : Template) (now : String)
    (h : ∀ m ∈ extractVarRefs t.content,
        (splitOnChar '.' (refToVariable m)).length < 2) :
    generateSampleDataFromTemplate t now = defaultSampleData ∧
      defaultSampleData ≠ [] := by
  refine ⟨?_, by decide⟩
  unfold generateSampleDataFromTemplate generateSampleDataFromContent
  rw [synthFold_of_short now _ h]
  rfl

/-- Witness for C8 at the spec's example input `"no variables here"`. -/
theorem synthesize_default_on_no_two_segment_refs_witness :
    generateSampleDataFromTemplate
      { id := "tpl-2", name := "Plain", category := "General", description := "",
        content := "no variables here", isActive := true,
        createdAt := "2024-01-01", updatedAt := "2024-01-02" }
      "2024-06-01T00:00:00Z" = defaultSampleData ∧
      defaultSampleData ≠ [] :=
  synthesize_default_on_no_two_segment_refs _ "2024-06-01T00:00:00Z" (by decide)

/-- The nesting-free example from the spec: two opens and two closes in
an oddly nested arrangement still yield no brace-mismatch error. -/
theorem validate_nested_example :
    mismatchedBracesMsg ∉
      (validateTemplateContent "\x7b\x7b \x7b\x7b \x7d\x7d \x7d\x7d").errors := by
  decide

theorem updateTemplate_failure_shows_error
    (id : String) (d : TemplateUpdate) (apiKey : Option String)
    (outcome : HttpOutcome) (nowReq nowResp : String)
    (h : (updateTemplate id d apiKey outcome nowReq nowResp).result = none) :
    (updateTemplate id d apiKey outcome nowReq nowResp).errorShown.isSome = true := by
  by_cases hn : strFalsy d.name
  · simp [updateTemplate, hn]
  · simp only [Bool.not_eq_true] at hn
    by_cases hc : strFalsy d.content
    · simp [updateTemplate, hn, hc]
    · simp only [Bool.not_eq_true] at hc
      cases apiKey with
      | none => simp [updateTemplate, hn, hc]
      | some k => cases outcome <;> simp_all [updateTemplate, hn, hc]

theorem updateTemplate_requestSent_eq
    (id : String) (d : TemplateUpdate) (apiKey : Option String)
    (outcome : HttpOutcome) (nowReq nowResp : String) (b : UpdateRequestBody)
    (h : (updateTemplate id d apiKey outcome nowReq nowResp).requestSent = some b) :
    b = mkUpdateRequestBody id d nowReq := by
  by_cases hn : strFalsy d.name
  · simp [updateTemplate, hn] at h
  · simp only [Bool.not_eq_true] at hn
    by_cases hc : strFalsy d.content
    · simp [updateTemplate, hn, hc] at h
    · simp only [Bool.not_eq_true] at hc
      cases apiKey with
      | none => simp [updateTemplate, hn, hc] at h
      | some k => cases outcome <;> simp_all [updateTemplate, hn, hc]

theorem updateTemplate_requestSent_some
    (id : String) (d : TemplateUpdate) (k : String)
    (outcome : HttpOutcome) (nowReq nowResp : String)
    (hn : strFalsy d.name = false) (hc : strFalsy d.content = false) :
    (updateTemplate id d (some k) outcome nowReq nowResp).requestSent =
      some (mkUpdateRequestBody id d nowReq) := by
  cases outcome <;> simp [updateTemplate, hn, hc]

theorem mkUpdateRequestBody_savePayload (stored : Template) (bufferText nowReq : String) :
    mkUpdateRequestBody stored.id (savePayload stored bufferText) nowReq =
      { Id := stored.id, Name := stored.name, Description := stored.description,
        Content := bufferText,
        Category := if stored.category = "" then "General" else stored.category,
        IsActive := stored.isActive, Schema := jsOrNull stored.schema,
        SampleData := jsOrNull stored.sampleData, UpdatedAt := nowReq } := by
  simp [mkUpdateRequestBody, savePayload, jsOrD]
  by_cases hd : stored.description = "" <;> simp [hd]

/-- C1 counterexample: an empty-body success is reported as success,
but the binding's `updatedAt` keeps its pre-save value rather than
being advanced to either of the locally generated timestamps (which
appear only in the request body and in the discarded return value). -/
theorem save_emptyBody_updatedAt_not_advanced :
    ((saveTemplateToServer
        { id := "tpl-9", name := "Notice", category := "General",
          description := "d", content := "old text", isActive := true,
          createdAt := "2024-01-01T00:00:00Z", updatedAt := "2024-02-02T00:00:00Z" }
        "new text" (some "key") .emptyBody
        "2025-05-05T10:00:00Z" "2025-05-05T10:00:01Z").binding.updatedAt =
      "2024-02-02T00:00:00Z") ∧
    ((saveTemplateToServer
        { id := "tpl-9", name := "Notice", category := "General",
          description := "d", content := "old text", isActive := true,
          createdAt := "2024-01-01T00:00:00Z", updatedAt := "2024-02-02T00:00:00Z" }
        "new text" (some "key") .emptyBody
        "2025-05-05T10:00:00Z" "2025-05-05T10:00:01Z").infoShown.isSome = true) ∧
    ("2024-02-02T00:00:00Z" : String) ≠ "2025-05-05T10:00:00Z" ∧
    ("2024-02-02T00:00:00Z" : String) ≠ "2025-05-05T10:00:01Z" := by
  refine ⟨rfl, rfl, by decide, by decide⟩

/-- C1 (amended): on an empty-body success the save reports success
and refreshes the binding's `content` to the saved buffer text, with
every other field of the bound record — `updatedAt` included —
preserved; the locally generated timestamp reaches only the request
payload and the update call's return value, not the binding. -/
theorem save_emptyBody_reports_success_content_refreshed
    (stored : Template) (bufferText : String) (key : String) (nowReq nowResp : String)
    (hname : stored.name ≠ "") (hcontent : bufferText ≠ "") :
    (saveTemplateToServer stored bufferText (some key) .emptyBody
        nowReq nowResp).infoShown.isSome = true ∧
    (saveTemplateToServer stored bufferText (some key) .emptyBody
        nowReq nowResp).binding = { stored with content := bufferText } := by
  constructor <;>
    simp [saveTemplateToServer, updateTemplate, savePayload, strFalsy, hname, hcontent]

/-- Witness for the amended C1 at a concrete binding and buffer. -/
theorem save_emptyBody_reports_success_content_refreshed_witness :
    (saveTemplateToServer
        { id := "tpl-9", name := "Notice", category := "General",
          description := "d", content := "old text", isActive := true,
          createdAt := "2024-01-01T00:00:00Z", updatedAt := "2024-02-02T00:00:00Z" }
        "new text" (some "key") .emptyBody
        "2025-05-05T10:00:00Z" "2025-05-05T10:00:01Z").infoShown.isSome = true ∧
    (saveTemplateToServer
        { id := "tpl-9", name := "Notice", category := "General",
          description := "d", content := "old text", isActive := true,
          createdAt := "2024-01-01T00:00:00Z", updatedAt := "2024-02-02T00:00:00Z" }
        "new text" (some "key") .emptyBody
        "2025-05-05T10:00:00Z" "2025-05-05T10:00:01Z").binding =
      { id := "tpl-9", name := "Notice", category := "General",
        description := "d", content := "new text", isActive := true,
        createdAt := "2024-01-01T00:00:00Z", updatedAt := "2024-02-02T00:00:00Z" } :=
  save_emptyBody_reports_success_content_refreshed _ _ "key"
    "2025-05-05T10:00:00Z" "2025-05-05T10:00:01Z" (by decide) (by decide)

/-- C2 counterexample: for a binding whose `category` is the empty
string, the update request carries `"General"` in its `Category` field,
not the binding's snapshot value. -/
theorem save_request_category_defaulted :
    ((saveTemplateToServer
        { id := "tpl-8", name := "N", category := "", description := "D",
          content := "old", isActive := true,
          createdAt := "c", updatedAt := "u" }
        "new" (some "key") .emptyBody "T1" "T2").requestSent.map
      (fun b => b.Category)) = some "General" ∧ ("General" : String) ≠ "" := by
  refine ⟨rfl, by decide⟩

/-- C2 (amended): every update request issued by a save carries the
binding's `name`, `description` and `isActive` unchanged, `content`
replaced by the buffer text and `updatedAt` set to the fresh timestamp,
but `category` falls back to `"General"` when empty, empty `schema` and
`sampleData` are sent as `null`, and `createdAt`/`userId` are not part
of the payload at all. -/
theorem save_request_body_characterization
    (stored : Template) (bufferText : String) (apiKey : Option String)
    (outcome : HttpOutcome) (nowReq nowResp : String) (b : UpdateRequestBody)
    (h : (saveTemplateToServer stored bufferText apiKey outcome
        nowReq nowResp).requestSent = some b) :
    b = { Id := stored.id, Name := stored.name, Description := stored.description,
          Content := bufferText,
          Category := if stored.category = "" then "General" else stored.category,
          IsActive := stored.isActive,
          Schema := jsOrNull stored.schema,
          SampleData := jsOrNull stored.sampleData,
          UpdatedAt := nowReq } := by
  by_cases hn : stored.name = ""
  · simp [saveTemplateToServer, hn] at h
  · have h2 : (updateTemplate stored.id (savePayload stored bufferText)
        apiKey outcome nowReq nowResp).requestSent = some b := by
      rcases hr : (updateTemplate stored.id (savePayload stored bufferText)
          apiKey outcome nowReq nowResp).result with _ | t <;>
        simpa [saveTemplateToServer, hn, hr] using h
    rw [updateTemplate_requestSent_eq _ _ _ _ _ _ _ h2,
      mkUpdateRequestBody_savePayload]

/-- Witness for the amended C2 at a concrete save whose request is
issued. -/
theorem save_request_body_characterization_witness :
    (saveTemplateToServer emptyCategoryTpl "new" (some "key") .emptyBody
        "T1" "T2").requestSent = some emptyCategoryBody ∧
    emptyCategoryBody =
      { Id := emptyCategoryTpl.id, Name := emptyCategoryTpl.name,
        Description := emptyCategoryTpl.description, Content := "new",
        Category := if emptyCategoryTpl.category = "" then "General"
          else emptyCategoryTpl.category,
        IsActive := emptyCategoryTpl.isActive,
        Schema := jsOrNull emptyCategoryTpl.schema,
        SampleData := jsOrNull emptyCategoryTpl.sampleData, UpdatedAt := "T1" } :=
  ⟨by decide,
   save_request_body_characterization emptyCategoryTpl "new" (some "key")
     .emptyBody "T1" "T2" emptyCategoryBody (by decide)⟩

theorem save_requestSent_passthrough
    (stored : Template) (bufferText : String) (apiKey : Option String)
    (outcome : HttpOutcome) (nowReq nowResp : String) (hn : ¬stored.name = "") :
    (saveTemplateToServer stored bufferText apiKey outcome nowReq nowResp).requestSent =
      (updateTemplate stored.id (savePayload stored bufferText)
        apiKey outcome nowReq nowResp).requestSent := by
  rcases hr : (updateTemplate stored.id (savePayload stored bufferText)
      apiKey outcome nowReq nowResp).result with _ | t <;>
    simp [saveTemplateToServer, hn, hr]

theorem save_binding_id
    (stored : Template) (bufferText : String) (apiKey : Option String)
    (outcome : HttpOutcome) (nowReq nowResp : String) :
    (saveTemplateToServer stored bufferText apiKey outcome nowReq nowResp).binding.id =
      stored.id := by
  by_cases hn : stored.name = ""
  · simp [saveTemplateToServer, hn]
  · rcases hr : (updateTemplate stored.id (savePayload stored bufferText)
        apiKey outcome nowReq nowResp).result with _ | t <;>
      simp [saveTemplateToServer, hn, hr]

/-- C3: opening a record and saving immediately without edits issues an
update call whose `Content` is exactly the record's content, and leaves
the binding's `id` unchanged, whatever the gateway replies. -/
theorem open_then_save_keeps_content_and_id
    (r : Template) (key : String) (outcome : HttpOutcome) (nowReq nowResp : String)
    (hname : r.name ≠ "") (hcontent : r.content ≠ "") :
    ((saveTemplateToServer (openTemplate r).1 (openTemplate r).2 (some key)
        outcome nowReq nowResp).requestSent.map (fun b => b.Content)) =
      some r.content ∧
    (saveTemplateToServer (openTemplate r).1 (openTemplate r).2 (some key)
        outcome nowReq nowResp).binding.id = r.id := by
  have hreq := updateTemplate_requestSent_some r.id (savePayload r r.content) key
    outcome nowReq nowResp (by simp [savePayload, strFalsy, hname])
    (by simp [savePayload, strFalsy, hcontent])
  have h1 : (openTemplate r).1 = r := rfl
  have h2 : (openTemplate r).2 = r.content := rfl
  rw [h1, h2]
  constructor
  · rw [save_requestSent_passthrough r r.content (some key) outcome nowReq nowResp hname,
      hreq, mkUpdateRequestBody_savePayload]
    rfl
  · exact save_binding_id r r.content (some key) outcome nowReq nowResp

/-- Witness for C3 at a concrete record and gateway reply. -/
theorem open_then_save_keeps_content_and_id_witness :
    ((saveTemplateToServer (openTemplate welcomeTpl).1 (openTemplate welcomeTpl).2
        (some "key") .emptyBody "T1" "T2").requestSent.map (fun b => b.Content)) =
      some welcomeTpl.content ∧
    (saveTemplateToServer (openTemplate welcomeTpl).1 (openTemplate welcomeTpl).2
        (some "key") .emptyBody "T1" "T2").binding.id = welcomeTpl.id :=
  open_then_save_keeps_content_and_id welcomeTpl
    "key" .emptyBody "T1" "T2" (by decide) (by decide)

/-- C4: an update whose payload has a falsy (empty or missing) `name`
or `content` fails locally with a validation error: the result is
`null`, an error is shown, and no HTTP request is issued. -/
theorem updateTemplate_validation_is_local
    (id : String) (d : TemplateUpdate) (apiKey : Option String)
    (outcome : HttpOutcome) (nowReq nowResp : String)
    (h : strFalsy d.name = true ∨ strFalsy d.content = true) :
    (updateTemplate id d apiKey outcome nowReq nowResp).result = none ∧
    (updateTemplate id d apiKey outcome nowReq nowResp).requestSent = none ∧
    (updateTemplate id d apiKey outcome nowReq nowResp).errorShown.isSome = true := by
  by_cases hn : strFalsy d.name
  · simp [updateTemplate, hn]
  · simp only [Bool.not_eq_true] at hn
    rcases h with h | h
    · rw [hn] at h
      exact absurd h (by decide)
    · simp [updateTemplate, hn, h]

/-- Witness for C4 at a concrete payload with an empty name. -/
theorem updateTemplate_validation_is_local_witness :
    (updateTemplate "tpl-4"
        { name := some "", category := some "C", description := some "D",
          content := some "body", isActive := some true,
          sampleData := none, schema := none }
        (some "key") .emptyBody "T1" "T2").result = none ∧
    (updateTemplate "tpl-4"
        { name := some "", category := some "C", description := some "D",
          content := some "body", isActive := some true,
          sampleData := none, schema := none }
        (some "key") .emptyBody "T1" "T2").requestSent = none ∧
    (updateTemplate "tpl-4"
        { name := some "", category := some "C", description := some "D",
          content := some "body", isActive := some true,
          sampleData := none, schema := none }
        (some "key") .emptyBody "T1" "T2").errorShown.isSome = true :=
  updateTemplate_validation_is_local "tpl-4" _ (some "key") .emptyBody "T1" "T2"
    (Or.inl (by decide))

/-- C5: when the update call of a save fails — validation error,
missing credentials, transport error, or non-2xx response, i.e. the
call returns `null` — the binding is left completely unchanged, no
success message is shown, and the error is surfaced; the model issues
no retry (at most one request exists in a run). -/
theorem save_failure_binding_unchanged
    (stored : Template) (bufferText : String) (apiKey : Option String)
    (outcome : HttpOutcome) (nowReq nowResp : String)
    (h : (updateTemplate stored.id (savePayload stored bufferText)
        apiKey outcome nowReq nowResp).result = none) :
    (saveTemplateToServer stored bufferText apiKey outcome nowReq nowResp).binding =
      stored ∧
    (saveTemplateToServer stored bufferText apiKey outcome nowReq nowResp).infoShown =
      none ∧
    (saveTemplateToServer stored bufferText apiKey outcome
        nowReq nowResp).errorShown.isSome = true := by
  by_cases hn : stored.name = ""
  · simp [saveTemplateToServer, hn]
  · have herr := updateTemplate_failure_shows_error _ _ _ _ _ _ h
    refine ⟨?_, ?_, ?_⟩ <;> simp [saveTemplateToServer, hn, h, herr]

/-- Witness for C5 at a concrete save hitting a transport error. -/
theorem save_failure_binding_unchanged_witness :
    (saveTemplateToServer
        { id := "tpl-5", name := "N", category := "C", description := "D",
          content := "old", isActive := true, createdAt := "c", updatedAt := "u" }
        "new" (some "key") (.netError "socket hang up") "T1" "T2").binding =
      { id := "tpl-5", name := "N", category := "C", description := "D",
        content := "old", isActive := true, createdAt := "c", updatedAt := "u" } ∧
    (saveTemplateToServer
        { id := "tpl-5", name := "N", category := "C", description := "D",
          content := "old", isActive := true, createdAt := "c", updatedAt := "u" }
        "new" (some "key") (.netError "socket hang up") "T1" "T2").infoShown = none ∧
    (saveTemplateToServer
        { id := "tpl-5", name := "N", category := "C", description := "D",
          content := "old", isActive := true, createdAt := "c", updatedAt := "u" }
        "new" (some "key") (.netError "socket hang up") "T1" "T2").errorShown.isSome =
      true :=
  save_failure_binding_unchanged _ "new" (some "key") (.netError "socket hang up")
    "T1" "T2" (by decide)

/-- C9: the result-field reader returns the value at the exact key when
defined; otherwise at the key with its first letter lowercased;
otherwise at the key with its first letter uppercased; otherwise it
moves on to the remaining candidate names. -/
theorem getProp_priority (obj : JObj) (p : String) (props : List String) :
    (∀ v, jsGet obj p = some v → getProp obj (p :: props) = some v) ∧
    (jsGet obj p = none → ∀ v, jsGet obj (lowerFirst p) = some v →
      getProp obj (p :: props) = some v) ∧
    (jsGet obj p = none → jsGet obj (lowerFirst p) = none →
      ∀ v, jsGet obj (upperFirst p) = some v → getProp obj (p :: props) = some v) ∧
    (jsGet obj p = none → jsGet obj (lowerFirst p) = none →
      jsGet obj (upperFirst p) = none →
      getProp obj (p :: props) = getProp obj props) := by
  refine ⟨?_, ?_, ?_, ?_⟩ <;> intros <;> simp [getProp, *]

/-- Witness for C9: an exact miss, a lower-first miss, then an
upper-first hit. -/
theorem getProp_priority_witness :
    getProp [("Output", JVal.str "hi")] ["output"] = some (JVal.str "hi") :=
  (getProp_priority [("Output", JVal.str "hi")] "output" []).2.2.1
    (by decide) (by decide) (JVal.str "hi") (by decide)

/-- C10: a template whose content fails the validation heuristic yields
a failed test result carrying exactly the validation errors and no
render call; the render call is issued exactly when validation passes. -/
theorem testTemplate_validation_gates_render
    (template : Template) (render : RenderOutcome) (elapsed : Int) :
    ((validateTemplateContent template.content).isValid = false →
      (testTemplateRun template render elapsed).1.success = false ∧
      (testTemplateRun template render elapsed).1.errors =
        (validateTemplateContent template.content).errors ∧
      (testTemplateRun template render elapsed).2 = false) ∧
    ((testTemplateRun template render elapsed).2 = true ↔
      (validateTemplateContent template.content).isValid = true) := by
  by_cases hv : (validateTemplateContent template.content).isValid
  · cases render <;> simp [testTemplateRun, hv]
  · simp only [Bool.not_eq_true] at hv
    cases render <;> simp [testTemplateRun, hv]

/-- Witness for C10 at a concrete template with mismatched braces. -/
theorem testTemplate_validation_gates_render_witness :
    (validateTemplateContent "\x7b\x7b user.name" ≠
      ⟨true, []⟩) ∧
    (testTemplateRun
        { id := "tpl-10", name := "Broken", category := "C", description := "D",
          content := "\x7b\x7b user.name", isActive := true,
          createdAt := "c", updatedAt := "u" }
        (.ok []) 5).1.success = false ∧
    (testTemplateRun
        { id := "tpl-10", name := "Broken", category := "C", description := "D",
          content := "\x7b\x7b user.name", isActive := true,
          createdAt := "c", updatedAt := "u" }
        (.ok []) 5).2 = false :=
  ⟨by decide,
   ((testTemplate_validation_gates_render
       { id := "tpl-10", name := "Broken", category := "C", description := "D",
         content := "\x7b\x7b user.name", isActive := true,
         createdAt := "c", updatedAt := "u" }
       (.ok []) 5).1 (by decide)).1,
   ((testTemplate_validation_gates_render
       { id := "tpl-10", name := "Broken", category := "C", description := "D",
         content := "\x7b\x7b user.name", isActive := true,
         createdAt := "c", updatedAt := "u" }
       (.ok []) 5).1 (by decide)).2.2⟩

end Loro
